import Mathlib

/-!
Shallow embedding of the interaction-element detection engine of
`src/element_finder.py` (class `InteractionElementFinder`), together with
proofs of the specification claims about it.

Modelling conventions:
* A live DOM element is modelled by the results of its (fallible) Selenium
  accessors: every accessor returns `Except String α`, where `Except.error m`
  models a raised exception (stale element, WebDriver error, ...).
* Python dictionaries produced by `_create_element_info` are modelled by the
  inductive `ElementRecord`: the `full` constructor is the eleven-key success
  dictionary, the `failed` constructor is the five-key dictionary built in the
  `except` branch (which has no `element_xpath` key).
* `element.get_attribute(name)` returns `Option String` (`none` = attribute
  absent, i.e. Python `None`); the Python idiom `... or ""` is `Option.getD ""`.
* The JavaScript executed by `_generate_xpath` / `_generate_css_selector` runs
  in the browser, outside the repository; its outcome for a given element is
  modelled by the element's `generate_xpath` / `generate_css_selector` fields
  (`Except.error` = the script raised, `.ok none` = the script returned null).
-/

namespace ElementFinder

/-- Lower-casing of a string, modelling Python `str.lower()` (ASCII letters;
the catalog's CJK characters are unaffected by `lower` in both languages). -/
def strLower (s : String) : String :=
  String.mk (s.data.map Char.toLower)

/-- Whitespace test used to model Python `str.strip()`. -/
def isStripChar (c : Char) : Bool :=
  c = ' ' || c = '\t' || c = '\n' || c = '\r'

/-- Modelling Python `str.strip()`: drop leading and trailing whitespace. -/
def stripStr (s : String) : String :=
  String.mk (((s.data.dropWhile isStripChar).reverse.dropWhile isStripChar).reverse)

/-- Does `needle` occur at the start of `hay`? -/
def startsWithList : List Char → List Char → Bool
  | [], _ => true
  | _ :: _, [] => false
  | a :: as, b :: bs => a = b && startsWithList as bs

/-- Does `needle` occur contiguously inside `hay`? -/
def containsList (needle : List Char) : List Char → Bool
  | [] => startsWithList needle []
  | b :: bs => startsWithList needle (b :: bs) || containsList needle bs

/-- Python `needle in hay` on strings: contiguous-substring containment. -/
def strContains (needle hay : String) : Bool :=
  containsList needle.data hay.data

/-- Number of positionally equal characters of two character lists. -/
def countEq : List Char → List Char → Nat
  | a :: as, b :: bs => (if a = b then 1 else 0) + countEq as bs
  | _, _ => 0

/-- Best alignment score of `sh` against any suffix window of `lo`. -/
def bestWindow (sh : List Char) : List Char → Nat
  | [] => countEq sh []
  | b :: bs => max (countEq sh (b :: bs)) (bestWindow sh bs)

/-- Modelled from the spec: the fuzzy partial-similarity score
(`fuzzywuzzy.fuzz.partial_ratio`, a third-party library that is not part of
this repository's sources).  Per the spec it is a substring-tolerant
approximate match in [0,100]: the shorter string is slid across the longer
one and the best window is scored, so a keyword occurring verbatim inside a
longer blob scores 100 without being penalized for the unmatched
surrounding text. -/
def fuzzScore (s1 s2 : String) : Nat :=
  let a := s1.data
  let b := s2.data
  let sh := if a.length ≤ b.length then a else b
  let lo := if a.length ≤ b.length then b else a
  if sh.length = 0 then 0 else (100 * bestWindow sh lo) / sh.length

/-- The keyword catalog `InteractionElementFinder.INTERACTION_KEYWORDS`. -/
def INTERACTION_KEYWORDS : List String :=
  ["点赞", "赞", "喜欢", "顶", "支持",
   "点踩", "踩", "不喜欢", "倒", "反对",
   "投票", "评分", "评价", "收藏", "分享",
   "like", "upvote", "up vote", "up-vote", "thumbs up", "+1",
   "dislike", "downvote", "down vote", "down-vote", "thumbs down", "-1",
   "vote", "rating", "rate", "favorite", "bookmark", "share", "react",
   "helpful", "recommend", "agree", "disagree", "support", "oppose"]

/-- The selector catalog `InteractionElementFinder.ELEMENT_SELECTORS`. -/
def ELEMENT_SELECTORS : List String :=
  ["button", "a.vote", "a.like", "div.vote", "div.like",
   "span.vote", "span.like", "i.fa-thumbs-up", "i.fa-thumbs-down",
   "[aria-label*=\"like\"]", "[aria-label*=\"vote\"]", "[title*=\"like\"]", "[title*=\"vote\"]",
   ".vote-up", ".vote-down", ".upvote", ".downvote", ".like-button", ".dislike-button",
   "[data-action=\"upvote\"]", "[data-action=\"downvote\"]", "[data-action=\"like\"]"]

/-- A live DOM element, represented by the observable results of its
accessors.  `Except.error m` models a raised WebDriver exception. -/
structure Element where
  is_displayed : Except String Bool
  is_enabled : Except String Bool
  text : Except String String
  tag_name : Except String String
  get_attribute : String → Except String (Option String)
  generate_xpath : Except String (Option String)
  generate_css_selector : Except String (Option String)

/-- `clickable_tags` from `_is_likely_interaction_element`. -/
def clickable_tags : List String := ["button", "a", "input"]

/-- `clickable_roles` from `_is_likely_interaction_element`. -/
def clickable_roles : List String := ["button", "link", "checkbox", "radio"]

/-- The `is_clickable` expression of `_is_likely_interaction_element`
(lines 116-121): tag already lower-cased by the caller, role compared
as-is, class lower-cased at the substring checks. -/
def is_clickable (element_tag element_class element_role : String) : Bool :=
  clickable_tags.contains element_tag ||
  clickable_roles.contains element_role ||
  strContains "button" (strLower element_class) ||
  strContains "btn" (strLower element_class)

/-- The keyword loop of `_is_likely_interaction_element` (lines 109-129):
build the combined lower-cased blob, then return true iff some keyword's
fuzzy score reaches the threshold and the element is clickable. -/
def scorer_decision (threshold : Nat)
    (element_text element_tag element_class element_id element_aria_label
     element_title element_role : String) : Bool :=
  let combined_text := strLower (element_text ++ " " ++ element_class ++ " " ++
    element_id ++ " " ++ element_aria_label ++ " " ++ element_title)
  INTERACTION_KEYWORDS.any fun keyword =>
    decide (threshold ≤ fuzzScore (strLower keyword) combined_text) &&
      is_clickable element_tag element_class element_role

/-- The body of the `try` block of `_is_likely_interaction_element`:
the accessors in source order, short-circuiting exactly as the Python does
(`is_enabled` is only consulted when the element is displayed). -/
def is_likely_core (threshold : Nat) (e : Element) : Except String Bool :=
  e.is_displayed >>= fun disp =>
  if !disp then pure false else
  e.is_enabled >>= fun ena =>
  if !ena then pure false else
  e.text >>= fun t =>
  let element_text := if t = "" then "" else strLower t
  e.tag_name >>= fun tn =>
  let element_tag := strLower tn
  e.get_attribute "class" >>= fun cls =>
  let element_class := cls.getD ""
  e.get_attribute "id" >>= fun idv =>
  let element_id := idv.getD ""
  e.get_attribute "aria-label" >>= fun al =>
  let element_aria_label := al.getD ""
  e.get_attribute "title" >>= fun ti =>
  let element_title := ti.getD ""
  e.get_attribute "role" >>= fun rl =>
  let element_role := rl.getD ""
  pure (scorer_decision threshold element_text element_tag element_class
    element_id element_aria_label element_title element_role)

/-- `InteractionElementFinder._is_likely_interaction_element`: the `try`
body, with any raised exception caught and turned into `false`. -/
def is_likely_interaction_element (threshold : Nat) (e : Element) : Bool :=
  match is_likely_core threshold e with
  | .ok b => b
  | .error _ => false

/-- The dictionary built by `_create_element_info`: `full` is the eleven-key
success dictionary, `failed` is the dictionary of the `except` branch,
which has no `element_xpath` / `element_css` keys. -/
inductive ElementRecord where
  | full (element_text element_tag element_class element_id element_aria_label
          element_title : String) (element_html : Option String)
         (element_xpath element_css : Option String)
         (match_term match_type : String)
  | failed (element_text element_tag errmsg match_term match_type : String)
deriving DecidableEq

/-- The value of `record.get('element_xpath', '')` as used by
`_deduplicate_elements` (a Python `None` value and a missing key are both
falsy there and are both modelled by `""`). -/
def ElementRecord.xpathValue : ElementRecord → String
  | .full _ _ _ _ _ _ _ xp _ _ _ => xp.getD ""
  | .failed _ _ _ _ _ => ""

/-- The `match_type` value of a record (present in both shapes). -/
def ElementRecord.matchType : ElementRecord → String
  | .full _ _ _ _ _ _ _ _ _ _ mty => mty
  | .failed _ _ _ _ mty => mty

/-- `InteractionElementFinder._create_element_info`: read the element's
attributes in source order inside a `try`; on success build the eleven-key
dictionary, where a locator-synthesis failure degrades that locator to
`"Unknown"`; on an accessor exception build the `failed` dictionary. -/
def create_element_info (e : Element) (match_term match_type : String) :
    ElementRecord :=
  match (e.text >>= fun t =>
         e.get_attribute "outerHTML" >>= fun html =>
         e.tag_name >>= fun tn =>
         e.get_attribute "class" >>= fun cls =>
         e.get_attribute "id" >>= fun idv =>
         e.get_attribute "aria-label" >>= fun al =>
         e.get_attribute "title" >>= fun ti =>
         pure (t, html, tn, cls, idv, al, ti) :
         Except String (String × Option String × String × Option String ×
           Option String × Option String × Option String)) with
  | .ok (t, html, tn, cls, idv, al, ti) =>
      .full (if t = "" then "" else stripStr t) tn (cls.getD "") (idv.getD "")
        (al.getD "") (ti.getD "") html
        (match e.generate_xpath with
         | .ok v => v
         | .error _ => some "Unknown")
        (match e.generate_css_selector with
         | .ok v => v
         | .error _ => some "Unknown")
        match_term match_type
  | .error msg =>
      .failed "Error extracting element info" "unknown" msg match_term match_type

/-- The loop of `_deduplicate_elements`, with the running `seen_xpaths` set
made explicit: keep a record iff its xpath value is truthy and unseen. -/
def deduplicate_elements_aux : List ElementRecord → List String → List ElementRecord
  | [], _ => []
  | r :: rest, seen =>
    if r.xpathValue ≠ "" ∧ r.xpathValue ∉ seen then
      r :: deduplicate_elements_aux rest (r.xpathValue :: seen)
    else
      deduplicate_elements_aux rest seen

/-- `InteractionElementFinder._deduplicate_elements`. -/
def deduplicate_elements (records : List ElementRecord) : List ElementRecord :=
  deduplicate_elements_aux records []

/-- The page driver: the query primitives consumed by
`find_interaction_elements`, each fallible.  `parent_of` models
`element.find_element(By.XPATH, "..")` in the counter strategy. -/
structure Driver where
  keyword_query : String → Except String (List Element)
  selector_query : String → Except String (List Element)
  svg_query : Except String (List Element)
  counter_query : Except String (List Element)
  parent_of : Element → Except String Element

/-- Strategy 1 of `find_interaction_elements` (lines 53-62): for each
keyword, query, filter through the scorer, tag with `keyword_match`.
No exception handler: a query error propagates. -/
def keyword_strategy (threshold : Nat) (d : Driver) :
    List String → Except String (List ElementRecord)
  | [] => .ok []
  | kw :: rest =>
    d.keyword_query kw >>= fun els =>
    keyword_strategy threshold d rest >>= fun more =>
    pure (((els.filter (is_likely_interaction_element threshold)).map
      (fun e => create_element_info e kw "keyword_match")) ++ more)

/-- Strategy 2 of `find_interaction_elements` (lines 64-72): for each CSS
selector, query inside a `try` whose `except` clause skips the selector,
filter through the scorer, tag with `selector_match`. -/
def selector_strategy (threshold : Nat) (d : Driver) :
    List String → List ElementRecord
  | [] => []
  | sel :: rest =>
    (match d.selector_query sel with
     | .ok els => (els.filter (is_likely_interaction_element threshold)).map
         (fun e => create_element_info e sel "selector_match")
     | .error _ => []) ++ selector_strategy threshold d rest

/-- The loop of strategy 4 (lines 84-87): for each counter element, look up
its parent (an uncaught lookup error propagates), score the parent, tag
with `counter_match`. -/
def counter_strategy (threshold : Nat) (d : Driver) :
    List Element → Except String (List ElementRecord)
  | [] => .ok []
  | e :: rest =>
    d.parent_of e >>= fun parent =>
    counter_strategy threshold d rest >>= fun more =>
    pure ((if is_likely_interaction_element threshold parent then
      [create_element_info parent "counter_parent" "counter_match"] else []) ++ more)

/-- `InteractionElementFinder.find_interaction_elements`: run the four
strategies in order, accumulating records, then deduplicate.  Only the
selector strategy contains exceptions; the other query calls are outside
any `try` and propagate. -/
def find_interaction_elements (threshold : Nat) (d : Driver) :
    Except String (List ElementRecord) :=
  keyword_strategy threshold d INTERACTION_KEYWORDS >>= fun kwRecs =>
  let selRecs := selector_strategy threshold d ELEMENT_SELECTORS
  d.svg_query >>= fun svgEls =>
  let svgRecs := (svgEls.filter (is_likely_interaction_element threshold)).map
    (fun e => create_element_info e "svg_icon" "svg_match")
  d.counter_query >>= fun ctrEls =>
  counter_strategy threshold d ctrEls >>= fun ctrRecs =>
  pure (deduplicate_elements (kwRecs ++ selRecs ++ svgRecs ++ ctrRecs))

end ElementFinder

namespace ElementFinder

/-! ### Helper lemmas -/

theorem ok_bind {α β : Type} (a : α) (f : α → Except String β) :
    (Except.ok a >>= f : Except String β) = f a := rfl

theorem error_bind {α β : Type} (m : String) (f : α → Except String β) :
    (Except.error m >>= f : Except String β) = Except.error m := rfl

theorem pure_eq_ok {α : Type} (a : α) :
    (pure a : Except String α) = Except.ok a := rfl

/-- `x = Except.error m` for some `m`: the accessor modelled by `x` raised. -/
def raises {α : Type} (x : Except String α) : Prop :=
  ∃ m, x = Except.error m

/-- Both shapes of `_create_element_info` carry the `match_type` they were
called with. -/
theorem matchType_create (e : Element) (a b : String) :
    (create_element_info e a b).matchType = b := by
  unfold create_element_info
  split <;> rfl

/-- When every accessor succeeds, the scorer computes the pure keyword-loop
decision on the extracted attribute values. -/
theorem is_likely_of_ok (threshold : Nat) (e : Element) (t tn : String)
    (cls idv al ti rl : Option String)
    (h1 : e.is_displayed = Except.ok true) (h2 : e.is_enabled = Except.ok true)
    (h3 : e.text = Except.ok t) (h4 : e.tag_name = Except.ok tn)
    (h5 : e.get_attribute "class" = Except.ok cls)
    (h6 : e.get_attribute "id" = Except.ok idv)
    (h7 : e.get_attribute "aria-label" = Except.ok al)
    (h8 : e.get_attribute "title" = Except.ok ti)
    (h9 : e.get_attribute "role" = Except.ok rl) :
    is_likely_interaction_element threshold e =
      scorer_decision threshold (if t = "" then "" else strLower t)
        (strLower tn) (cls.getD "") (idv.getD "") (al.getD "") (ti.getD "")
        (rl.getD "") := by
  simp [is_likely_interaction_element, is_likely_core, h1, h2, h3, h4, h5, h6, h7,
    h8, h9, ok_bind, pure_eq_ok]

/-- Case analysis on `_is_likely_interaction_element`: either it returns
`false`, or every accessor succeeded and the result is the pure keyword-loop
decision on the extracted attribute values. -/
theorem is_likely_cases (threshold : Nat) (e : Element) :
    is_likely_interaction_element threshold e = false ∨
    ∃ t tn cls idv al ti rl,
      e.is_displayed = Except.ok true ∧ e.is_enabled = Except.ok true ∧
      e.text = Except.ok t ∧ e.tag_name = Except.ok tn ∧
      e.get_attribute "class" = Except.ok cls ∧
      e.get_attribute "id" = Except.ok idv ∧
      e.get_attribute "aria-label" = Except.ok al ∧
      e.get_attribute "title" = Except.ok ti ∧
      e.get_attribute "role" = Except.ok rl ∧
      is_likely_interaction_element threshold e =
        scorer_decision threshold (if t = "" then "" else strLower t)
          (strLower tn) (cls.getD "") (idv.getD "") (al.getD "") (ti.getD "")
          (rl.getD "") := by
  rcases hd : e.is_displayed with m | b
  · exact Or.inl (by simp [is_likely_interaction_element, is_likely_core, hd, error_bind])
  rcases b with _ | _
  · exact Or.inl (by simp [is_likely_interaction_element, is_likely_core, hd,
      ok_bind, pure_eq_ok])
  rcases he : e.is_enabled with m | b
  · exact Or.inl (by simp [is_likely_interaction_element, is_likely_core, hd, he,
      ok_bind, error_bind])
  rcases b with _ | _
  · exact Or.inl (by simp [is_likely_interaction_element, is_likely_core, hd, he,
      ok_bind, pure_eq_ok])
  rcases ht : e.text with m | t
  · exact Or.inl (by simp [is_likely_interaction_element, is_likely_core, hd, he, ht,
      ok_bind, error_bind])
  rcases htn : e.tag_name with m | tn
  · exact Or.inl (by simp [is_likely_interaction_element, is_likely_core, hd, he, ht,
      htn, ok_bind, error_bind])
  rcases hcl : e.get_attribute "class" with m | cls
  · exact Or.inl (by simp [is_likely_interaction_element, is_likely_core, hd, he, ht,
      htn, hcl, ok_bind, error_bind])
  rcases hid : e.get_attribute "id" with m | idv
  · exact Or.inl (by simp [is_likely_interaction_element, is_likely_core, hd, he, ht,
      htn, hcl, hid, ok_bind, error_bind])
  rcases hal : e.get_attribute "aria-label" with m | al
  · exact Or.inl (by simp [is_likely_interaction_element, is_likely_core, hd, he, ht,
      htn, hcl, hid, hal, ok_bind, error_bind])
  rcases hti : e.get_attribute "title" with m | ti
  · exact Or.inl (by simp [is_likely_interaction_element, is_likely_core, hd, he, ht,
      htn, hcl, hid, hal, hti, ok_bind, error_bind])
  rcases hrl : e.get_attribute "role" with m | rl
  · exact Or.inl (by simp [is_likely_interaction_element, is_likely_core, hd, he, ht,
      htn, hcl, hid, hal, hti, hrl, ok_bind, error_bind])
  exact Or.inr ⟨t, tn, cls, idv, al, ti, rl, rfl, rfl, rfl, rfl, rfl, rfl, rfl, rfl, rfl,
    is_likely_of_ok threshold e t tn cls idv al ti rl hd he ht htn hcl hid hal hti hrl⟩

/-- The keyword-loop decision is antitone in the threshold. -/
theorem scorer_decision_mono {t1 t2 : Nat} (h : t1 ≤ t2)
    (a b c dd ee f r : String)
    (hacc : scorer_decision t2 a b c dd ee f r = true) :
    scorer_decision t1 a b c dd ee f r = true := by
  simp only [scorer_decision, List.any_eq_true, Bool.and_eq_true,
    decide_eq_true_eq] at hacc ⊢
  obtain ⟨kw, hmem, hsc, hck⟩ := hacc
  exact ⟨kw, hmem, Nat.le_trans h hsc, hck⟩

/-- If the element is not clickable the keyword loop rejects it. -/
theorem scorer_decision_not_clickable (threshold : Nat)
    (a b c dd ee f r : String) (h : is_clickable b c r = false) :
    scorer_decision threshold a b c dd ee f r = false := by
  simp only [scorer_decision, List.any_eq_false, Bool.and_eq_true,
    decide_eq_true_eq, not_and]
  intro kw _ _
  simp [h]

end ElementFinder

namespace ElementFinder

/-- The filtered view of the deduplication loop: for a truthy locator value
`v`, the output's records with locator `v` are exactly the first input
record with locator `v` (none if `v` was already seen). -/
theorem dedup_aux_filter (v : String) (hv : v ≠ "") (rs : List ElementRecord) :
    ∀ (seen : List String),
      (deduplicate_elements_aux rs seen).filter (fun r => r.xpathValue = v) =
        if v ∈ seen then []
        else ((rs.filter (fun r => r.xpathValue = v)).take 1) := by
  induction rs with
  | nil =>
    intro seen
    simp only [deduplicate_elements_aux, List.filter_nil, List.take_nil]
    split <;> rfl
  | cons r rest ih =>
    intro seen
    simp only [deduplicate_elements_aux]
    by_cases hxv : r.xpathValue = v
    · by_cases hseen : v ∈ seen
      · rw [if_neg (fun hcon => hcon.2 (by rw [hxv]; exact hseen)),
          ih seen, if_pos hseen, if_pos hseen]
      · rw [if_pos ⟨by rw [hxv]; exact hv, by rw [hxv]; exact hseen⟩,
          if_neg hseen]
        have h1 := ih (r.xpathValue :: seen)
        rw [hxv] at h1
        rw [if_pos (List.mem_cons_self _ _)] at h1
        rw [hxv]
        simp [List.filter_cons, hxv, h1]
    · have hpv : ¬ v = r.xpathValue := fun h => hxv h.symm
      by_cases hcond : (r.xpathValue ≠ "" ∧ r.xpathValue ∉ seen)
      · rw [if_pos hcond]
        have h1 := ih (r.xpathValue :: seen)
        simp only [List.mem_cons, hpv, false_or] at h1
        simp [List.filter_cons, hxv, h1]
      · rw [if_neg hcond, ih seen]
        simp [List.filter_cons, hxv]

/-- Every record kept by the deduplication loop came from the input list. -/
theorem mem_of_mem_dedup_aux (r : ElementRecord) (rs : List ElementRecord) :
    ∀ (seen : List String), r ∈ deduplicate_elements_aux rs seen → r ∈ rs := by
  induction rs with
  | nil => intro seen h; simp [deduplicate_elements_aux] at h
  | cons a rest ih =>
    intro seen h
    simp only [deduplicate_elements_aux] at h
    by_cases hcond : (a.xpathValue ≠ "" ∧ a.xpathValue ∉ seen)
    · rw [if_pos hcond] at h
      rcases List.mem_cons.mp h with rfl | hm
      · exact List.mem_cons_self _ _
      · exact List.mem_cons_of_mem a (ih _ hm)
    · rw [if_neg hcond] at h
      exact List.mem_cons_of_mem a (ih seen h)

/-- Every record kept by the deduplication loop has a truthy locator. -/
theorem xpathValue_ne_of_mem_dedup_aux (r : ElementRecord)
    (rs : List ElementRecord) :
    ∀ (seen : List String),
      r ∈ deduplicate_elements_aux rs seen → r.xpathValue ≠ "" := by
  induction rs with
  | nil => intro seen h; simp [deduplicate_elements_aux] at h
  | cons a rest ih =>
    intro seen h
    simp only [deduplicate_elements_aux] at h
    by_cases hcond : (a.xpathValue ≠ "" ∧ a.xpathValue ∉ seen)
    · rw [if_pos hcond] at h
      rcases List.mem_cons.mp h with rfl | hm
      · exact hcond.1
      · exact ih _ hm
    · rw [if_neg hcond] at h
      exact ih seen h

/-- A successful discovery call decomposes into successful keyword, svg and
counter queries, and its output is the deduplication of the four strategy
record lists concatenated in strategy order. -/
theorem find_ok_decomposition (threshold : Nat) (d : Driver)
    (out : List ElementRecord)
    (h : find_interaction_elements threshold d = .ok out) :
    ∃ kwRecs svgEls ctrEls ctrRecs,
      keyword_strategy threshold d INTERACTION_KEYWORDS = .ok kwRecs ∧
      d.svg_query = .ok svgEls ∧ d.counter_query = .ok ctrEls ∧
      counter_strategy threshold d ctrEls = .ok ctrRecs ∧
      out = deduplicate_elements (kwRecs ++
        selector_strategy threshold d ELEMENT_SELECTORS ++
        (svgEls.filter (is_likely_interaction_element threshold)).map
          (fun e => create_element_info e "svg_icon" "svg_match") ++ ctrRecs) := by
  unfold find_interaction_elements at h
  rcases hk : keyword_strategy threshold d INTERACTION_KEYWORDS with m | kwRecs
  · rw [hk, error_bind] at h; simp at h
  rw [hk] at h
  simp only [ok_bind] at h
  rcases hs : d.svg_query with m | svgEls
  · rw [hs, error_bind] at h; simp at h
  rw [hs] at h
  simp only [ok_bind] at h
  rcases hc : d.counter_query with m | ctrEls
  · rw [hc, error_bind] at h; simp at h
  rw [hc] at h
  simp only [ok_bind] at h
  rcases hcr : counter_strategy threshold d ctrEls with m | ctrRecs
  · rw [hcr, error_bind] at h; simp at h
  rw [hcr] at h
  simp only [ok_bind, pure_eq_ok, Except.ok.injEq] at h
  exact ⟨kwRecs, svgEls, ctrEls, ctrRecs, rfl, rfl, rfl, hcr, h.symm⟩

end ElementFinder

namespace ElementFinder

/-- Every record produced by the keyword strategy is tagged `keyword_match`. -/
theorem keyword_strategy_tags (threshold : Nat) (d : Driver) :
    ∀ (kws : List String) (out : List ElementRecord),
      keyword_strategy threshold d kws = .ok out →
      ∀ r ∈ out, r.matchType = "keyword_match" := by
  intro kws
  induction kws with
  | nil =>
    intro out h r hr
    simp only [keyword_strategy, Except.ok.injEq] at h
    subst h
    simp at hr
  | cons kw rest ih =>
    intro out h r hr
    simp only [keyword_strategy] at h
    rcases hq : d.keyword_query kw with m | els
    · rw [hq, error_bind] at h; simp at h
    rw [hq] at h
    simp only [ok_bind] at h
    rcases hrest : keyword_strategy threshold d rest with m | more
    · rw [hrest, error_bind] at h; simp at h
    rw [hrest] at h
    simp only [ok_bind, pure_eq_ok, Except.ok.injEq] at h
    subst h
    rcases List.mem_append.mp hr with hm | hm
    · obtain ⟨e2, _, rfl⟩ := List.mem_map.mp hm
      exact matchType_create e2 kw "keyword_match"
    · exact ih more hrest r hm

/-- Every record produced by the selector strategy is tagged
`selector_match`. -/
theorem selector_strategy_tags (threshold : Nat) (d : Driver) :
    ∀ (sels : List String) (r : ElementRecord),
      r ∈ selector_strategy threshold d sels →
      r.matchType = "selector_match" := by
  intro sels
  induction sels with
  | nil => intro r hr; simp [selector_strategy] at hr
  | cons sel rest ih =>
    intro r hr
    simp only [selector_strategy] at hr
    rcases List.mem_append.mp hr with hm | hm
    · rcases hq : d.selector_query sel with m | els
      · rw [hq] at hm; simp at hm
      · rw [hq] at hm
        simp only at hm
        obtain ⟨e2, _, rfl⟩ := List.mem_map.mp hm
        exact matchType_create e2 sel "selector_match"
    · exact ih r hm

/-- Every record produced by the counter strategy is tagged
`counter_match`. -/
theorem counter_strategy_tags (threshold : Nat) (d : Driver) :
    ∀ (els : List Element) (out : List ElementRecord),
      counter_strategy threshold d els = .ok out →
      ∀ r ∈ out, r.matchType = "counter_match" := by
  intro els
  induction els with
  | nil =>
    intro out h r hr
    simp only [counter_strategy, Except.ok.injEq] at h
    subst h
    simp at hr
  | cons e2 rest ih =>
    intro out h r hr
    simp only [counter_strategy] at h
    rcases hp : d.parent_of e2 with m | parent
    · rw [hp, error_bind] at h; simp at h
    rw [hp] at h
    simp only [ok_bind] at h
    rcases hrest : counter_strategy threshold d rest with m | more
    · rw [hrest, error_bind] at h; simp at h
    rw [hrest] at h
    simp only [ok_bind, pure_eq_ok, Except.ok.injEq] at h
    subst h
    rcases List.mem_append.mp hr with hm | hm
    · by_cases hl : is_likely_interaction_element threshold parent
      · rw [if_pos hl] at hm
        rcases List.mem_singleton.mp hm with rfl
        exact matchType_create parent "counter_parent" "counter_match"
      · rw [if_neg hl] at hm; simp at hm
    · exact ih more hrest r hm

/-- The keyword strategy succeeds whenever all its queries succeed. -/
theorem keyword_strategy_ok (threshold : Nat) (d : Driver) :
    ∀ (kws : List String),
      (∀ kw ∈ kws, ∃ l, d.keyword_query kw = .ok l) →
      ∃ out, keyword_strategy threshold d kws = .ok out := by
  intro kws
  induction kws with
  | nil => intro _; exact ⟨[], rfl⟩
  | cons kw rest ih =>
    intro hq
    obtain ⟨l, hl⟩ := hq kw (List.mem_cons_self kw rest)
    obtain ⟨more, hmore⟩ := ih (fun k hk => hq k (List.mem_cons_of_mem kw hk))
    exact ⟨((l.filter (is_likely_interaction_element threshold)).map
        (fun e => create_element_info e kw "keyword_match")) ++ more,
      by simp only [keyword_strategy, hl, ok_bind, hmore, pure_eq_ok]⟩

/-- The counter strategy succeeds whenever all parent lookups succeed. -/
theorem counter_strategy_ok (threshold : Nat) (d : Driver) :
    ∀ (els : List Element),
      (∀ e ∈ els, ∃ p, d.parent_of e = .ok p) →
      ∃ out, counter_strategy threshold d els = .ok out := by
  intro els
  induction els with
  | nil => intro _; exact ⟨[], rfl⟩
  | cons e2 rest ih =>
    intro hp
    obtain ⟨p, hl⟩ := hp e2 (List.mem_cons_self e2 rest)
    obtain ⟨more, hmore⟩ := ih (fun k hk => hp k (List.mem_cons_of_mem e2 hk))
    exact ⟨(if is_likely_interaction_element threshold p then
        [create_element_info p "counter_parent" "counter_match"] else []) ++ more,
      by simp only [counter_strategy, hl, ok_bind, hmore, pure_eq_ok]⟩

end ElementFinder

namespace ElementFinder

/-! ### Concrete fixtures used by counterexamples and witnesses -/

/-- A visible, enabled button whose visible text is "like". -/
def goodButton : Element :=
  { is_displayed := .ok true, is_enabled := .ok true, text := .ok "like",
    tag_name := .ok "button", get_attribute := fun _ => .ok none,
    generate_xpath := .ok (some "/html/body/button[1]"),
    generate_css_selector := .ok (some "button") }

/-- A visible, enabled button whose visible text is "liked". -/
def likedButton : Element :=
  { is_displayed := .ok true, is_enabled := .ok true, text := .ok "liked",
    tag_name := .ok "button", get_attribute := fun _ => .ok none,
    generate_xpath := .ok (some "/html/body/button[1]"),
    generate_css_selector := .ok (some "button") }

/-- A visible, enabled bare span with matching text but no clickable signal. -/
def plainSpan : Element :=
  { is_displayed := .ok true, is_enabled := .ok true, text := .ok "128 likes",
    tag_name := .ok "span", get_attribute := fun _ => .ok none,
    generate_xpath := .ok (some "/html/body/span[1]"),
    generate_css_selector := .ok (some "span") }

/-- A visible, enabled button whose text matches no catalog keyword. -/
def xyzButton : Element :=
  { is_displayed := .ok true, is_enabled := .ok true, text := .ok "xyz",
    tag_name := .ok "button", get_attribute := fun _ => .ok none,
    generate_xpath := .ok (some "/html/body/button[2]"),
    generate_css_selector := .ok (some "button:nth-of-type(2)") }

/-- An element whose text accessor raises (detached mid-inspection). -/
def staleElement : Element :=
  { is_displayed := .ok true, is_enabled := .ok true,
    text := .error "StaleElementReferenceException",
    tag_name := .ok "button", get_attribute := fun _ => .ok none,
    generate_xpath := .ok (some "/html/body/button[1]"),
    generate_css_selector := .ok (some "button") }

/-- A record whose structural locator degraded to the placeholder. -/
def unknownRec1 : ElementRecord :=
  .full "Like" "div" "" "" "" "" (some "<div>Like</div>") (some "Unknown")
    (some "Unknown") "like" "keyword_match"

/-- A second, distinct record whose locator also degraded to the placeholder. -/
def unknownRec2 : ElementRecord :=
  .full "Vote" "span" "" "" "" "" (some "<span>Vote</span>") (some "Unknown")
    (some "Unknown") "vote" "selector_match"

/-- Two records for the same physical button, found by two strategies. -/
def recBtnKeyword : ElementRecord :=
  .full "like" "button" "" "" "" "" (some "<button>like</button>")
    (some "/html/body/button[1]") (some "button") "like" "keyword_match"

/-- The selector strategy's record for the same button as `recBtnKeyword`. -/
def recBtnSelector : ElementRecord :=
  .full "like" "button" "" "" "" "" (some "<button>like</button>")
    (some "/html/body/button[1]") (some "button") "button" "selector_match"

/-- A page driver whose svg-strategy XPath query raises. -/
def svgFailDriver : Driver :=
  { keyword_query := fun _ => .ok [],
    selector_query := fun _ => .ok [],
    svg_query := .error "InvalidSelectorException",
    counter_query := .ok [],
    parent_of := fun _ => .error "stale" }

/-- A page driver on which every CSS-selector query raises. -/
def selFailDriver : Driver :=
  { keyword_query := fun _ => .ok [],
    selector_query := fun _ => .error "invalid selector",
    svg_query := .ok [],
    counter_query := .ok [],
    parent_of := fun e => .ok e }

/-- A page driver whose keyword query for "like" finds `goodButton`. -/
def oneHitDriver : Driver :=
  { keyword_query := fun kw => if kw = "like" then .ok [goodButton] else .ok [],
    selector_query := fun _ => .ok [],
    svg_query := .ok [],
    counter_query := .ok [],
    parent_of := fun e => .ok e }

/-- The record discovery produces for `goodButton` on `oneHitDriver`. -/
def goodRecord : ElementRecord :=
  .full "like" "button" "" "" "" "" none (some "/html/body/button[1]")
    (some "button") "like" "keyword_match"

/-- The four strategy provenance tags. -/
def match_type_tags : List String :=
  ["keyword_match", "selector_match", "svg_match", "counter_match"]

/-! ### Claims -/

/-- Claim C1: for every list of candidate records (as produced by the four
strategies in fixed order, appended in encounter order) and every distinct
structural-locator value, deduplication keeps exactly the first record seen
with that locator — so when two strategies find the same physical element
the output has exactly one record for it, the earlier strategy's record
(hence its `match_type`). -/
theorem C1_dedup_first_record_wins (rs : List ElementRecord) (v : String)
    (hv : v ≠ "") :
    (deduplicate_elements rs).filter (fun r => r.xpathValue = v) =
      (rs.filter (fun r => r.xpathValue = v)).take 1 := by
  unfold deduplicate_elements
  rw [dedup_aux_filter v hv rs []]
  rw [if_neg (List.not_mem_nil v)]

/-- Witness for C1 at a concrete input: the keyword-strategy record and the
selector-strategy record share a locator; only the first survives. -/
theorem C1_witness :
    "/html/body/button[1]" ≠ "" ∧
    (deduplicate_elements [recBtnKeyword, recBtnSelector]).filter
        (fun r => r.xpathValue = "/html/body/button[1]") =
      ([recBtnKeyword, recBtnSelector].filter
        (fun r => r.xpathValue = "/html/body/button[1]")).take 1 :=
  ⟨by decide, C1_dedup_first_record_wins [recBtnKeyword, recBtnSelector]
    "/html/body/button[1]" (by decide)⟩

/-- Counterexample to claim C2: two records whose structural locator is the
placeholder "Unknown" ARE deduplicated against each other — the second is
dropped, so not all "Unknown" records are kept. -/
theorem C2_counterexample :
    deduplicate_elements [unknownRec1, unknownRec2] = [unknownRec1] := by
  decide

/-- Claim C2 as amended: records whose structural locator is the placeholder
"Unknown" are deduplicated exactly like any other non-empty locator value:
only the first "Unknown" record is kept, all later ones are dropped. -/
theorem C2_amended_unknown_first_only (rs : List ElementRecord) :
    (deduplicate_elements rs).filter (fun r => r.xpathValue = "Unknown") =
      (rs.filter (fun r => r.xpathValue = "Unknown")).take 1 := by
  unfold deduplicate_elements
  rw [dedup_aux_filter "Unknown" (by decide) rs []]
  rw [if_neg (List.not_mem_nil _)]

/-- Counterexample to claim C3: an exception raised by the svg strategy's
query propagates out of `find_interaction_elements` instead of being
contained, aborting the remaining strategies. -/
theorem C3_counterexample :
    find_interaction_elements 70 svgFailDriver =
      .error "InvalidSelectorException" := rfl

/-- Claim C3 as amended: only the CSS-selector strategy contains exceptions
(each failing selector is skipped); when the keyword, svg, and counter
queries and the counter parent lookups succeed, discovery succeeds, no
matter how many selector queries raise. -/
theorem C3_amended_selector_failures_contained (threshold : Nat) (d : Driver)
    (hk : ∀ kw ∈ INTERACTION_KEYWORDS, ∃ l, d.keyword_query kw = .ok l)
    (hs : ∃ l, d.svg_query = .ok l)
    (hc : ∃ l, d.counter_query = .ok l ∧ ∀ e ∈ l, ∃ p, d.parent_of e = .ok p) :
    ∃ out, find_interaction_elements threshold d = .ok out := by
  obtain ⟨k, hk2⟩ := keyword_strategy_ok threshold d INTERACTION_KEYWORDS hk
  obtain ⟨v, hv2⟩ := hs
  obtain ⟨c, hc2, hpar⟩ := hc
  obtain ⟨cr, hcr2⟩ := counter_strategy_ok threshold d c hpar
  exact ⟨deduplicate_elements (k ++
      selector_strategy threshold d ELEMENT_SELECTORS ++
      (v.filter (is_likely_interaction_element threshold)).map
        (fun e => create_element_info e "svg_icon" "svg_match") ++ cr),
    by simp only [find_interaction_elements, hk2, ok_bind, hv2, hc2, hcr2,
      pure_eq_ok]⟩

/-- Witness for the amended C3 at a concrete input: a driver on which every
CSS-selector query raises still yields a successful discovery call. -/
theorem C3_amended_witness :
    ∃ out, find_interaction_elements 70 selFailDriver = .ok out :=
  C3_amended_selector_failures_contained 70 selFailDriver
    (fun _ _ => ⟨[], rfl⟩) ⟨[], rfl⟩
    ⟨[], rfl, fun e he => absurd he (List.not_mem_nil e)⟩

/-- Claim C4: if any attribute, text, visibility, or enabled-state access
inside the candidate scorer raises, `_is_likely_interaction_element`
returns `false`; it never propagates the exception (its result type is a
plain `Bool` — `is_likely_core` errors are all caught). -/
theorem C4_scorer_false_on_exception (threshold : Nat) (e : Element)
    (h : raises e.is_displayed ∨ raises e.is_enabled ∨ raises e.text ∨
         raises e.tag_name ∨ raises (e.get_attribute "class") ∨
         raises (e.get_attribute "id") ∨
         raises (e.get_attribute "aria-label") ∨
         raises (e.get_attribute "title") ∨
         raises (e.get_attribute "role")) :
    is_likely_interaction_element threshold e = false := by
  rcases is_likely_cases threshold e with hf | ⟨t, tn, cls, idv, al, ti, rl,
    h1, h2, h3, h4, h5, h6, h7, h8, h9, _⟩
  · exact hf
  · exfalso
    rcases h with ⟨m, hm⟩ | ⟨m, hm⟩ | ⟨m, hm⟩ | ⟨m, hm⟩ | ⟨m, hm⟩ | ⟨m, hm⟩ |
      ⟨m, hm⟩ | ⟨m, hm⟩ | ⟨m, hm⟩
    · rw [hm] at h1; exact Except.noConfusion h1
    · rw [hm] at h2; exact Except.noConfusion h2
    · rw [hm] at h3; exact Except.noConfusion h3
    · rw [hm] at h4; exact Except.noConfusion h4
    · rw [hm] at h5; exact Except.noConfusion h5
    · rw [hm] at h6; exact Except.noConfusion h6
    · rw [hm] at h7; exact Except.noConfusion h7
    · rw [hm] at h8; exact Except.noConfusion h8
    · rw [hm] at h9; exact Except.noConfusion h9

/-- Witness for C4 at a concrete input: an element whose text accessor
raises a stale-element exception is scored `false`. -/
theorem C4_witness : is_likely_interaction_element 70 staleElement = false :=
  C4_scorer_false_on_exception 70 staleElement
    (Or.inr (Or.inr (Or.inl ⟨"StaleElementReferenceException", rfl⟩)))

/-- Claim C5: an element with none of the clickable signals (tag not in
{button, a, input}, role not in {button, link, checkbox, radio}, class
containing neither "button" nor "btn" case-insensitively) is rejected by
the scorer at every threshold, regardless of any keyword similarity. -/
theorem C5_clickability_gate (threshold : Nat) (e : Element) (tg : String)
    (cls rl : Option String)
    (htag : e.tag_name = Except.ok tg)
    (hcls : e.get_attribute "class" = Except.ok cls)
    (hrole : e.get_attribute "role" = Except.ok rl)
    (hnc : is_clickable (strLower tg) (cls.getD "") (rl.getD "") = false) :
    is_likely_interaction_element threshold e = false := by
  rcases is_likely_cases threshold e with hf | ⟨t, tn, cls2, idv, al, ti, rl2,
    h1, h2, h3, h4, h5, h6, h7, h8, h9, heq⟩
  · exact hf
  · rw [htag] at h4
    rw [hcls] at h5
    rw [hrole] at h9
    injection h4 with h4
    injection h5 with h5
    injection h9 with h9
    subst h4; subst h5; subst h9
    rw [heq]
    exact scorer_decision_not_clickable threshold _ _ _ _ _ _ _ hnc

/-- Witness for C5 at a concrete input: a bare span whose text contains
"likes" (similarity 100 for keyword "like") is rejected even at
threshold 0. -/
theorem C5_witness : is_likely_interaction_element 0 plainSpan = false :=
  C5_clickability_gate 0 plainSpan "span" none none rfl rfl rfl (by decide)

end ElementFinder

namespace ElementFinder

/-- Claim C6: threshold monotonicity — for a fixed element, if the scorer
accepts at the higher threshold it accepts at any lower one, so the
candidate set at threshold T is a superset of the one at T2 > T. -/
theorem C6_threshold_monotone (e : Element) (t1 t2 : Nat) (hlt : t1 < t2)
    (hacc : is_likely_interaction_element t2 e = true) :
    is_likely_interaction_element t1 e = true := by
  rcases is_likely_cases t2 e with hf | ⟨t, tn, cls, idv, al, ti, rl,
    h1, h2, h3, h4, h5, h6, h7, h8, h9, heq⟩
  · rw [hf] at hacc; exact Bool.noConfusion hacc
  · rw [heq] at hacc
    rw [is_likely_of_ok t1 e t tn cls idv al ti rl h1 h2 h3 h4 h5 h6 h7 h8 h9]
    exact scorer_decision_mono (Nat.le_of_lt hlt) _ _ _ _ _ _ _ hacc

/-- Witness for C6 at a concrete input: `goodButton` is accepted at
threshold 80, hence also at threshold 10. -/
theorem C6_witness :
    10 < 80 ∧ is_likely_interaction_element 10 goodButton = true :=
  ⟨by decide, C6_threshold_monotone goodButton 10 80 (by decide) (by decide)⟩

/-- Claim C7: at threshold 0 (the catalog being the fixed non-empty
`INTERACTION_KEYWORDS`), every visible, enabled, clickable element whose
accessors succeed is accepted: any fuzzy score is ≥ 0, so clickability
alone decides. -/
theorem C7_threshold_zero_accepts_clickable (e : Element) (t tn : String)
    (cls idv al ti rl : Option String)
    (h1 : e.is_displayed = Except.ok true) (h2 : e.is_enabled = Except.ok true)
    (h3 : e.text = Except.ok t) (h4 : e.tag_name = Except.ok tn)
    (h5 : e.get_attribute "class" = Except.ok cls)
    (h6 : e.get_attribute "id" = Except.ok idv)
    (h7 : e.get_attribute "aria-label" = Except.ok al)
    (h8 : e.get_attribute "title" = Except.ok ti)
    (h9 : e.get_attribute "role" = Except.ok rl)
    (hclick : is_clickable (strLower tn) (cls.getD "") (rl.getD "") = true) :
    is_likely_interaction_element 0 e = true := by
  rw [is_likely_of_ok 0 e t tn cls idv al ti rl h1 h2 h3 h4 h5 h6 h7 h8 h9]
  simp only [scorer_decision, List.any_eq_true]
  exact ⟨"点赞", by simp [INTERACTION_KEYWORDS], by simp [hclick]⟩

/-- Witness for C7 at a concrete input: a clickable button whose text
matches no keyword at all is still accepted at threshold 0. -/
theorem C7_witness : is_likely_interaction_element 0 xyzButton = true :=
  C7_threshold_zero_accepts_clickable xyzButton "xyz" "button"
    none none none none none rfl rfl rfl rfl rfl rfl rfl rfl rfl (by decide)

/-- Claim C8: at threshold 100 with the catalog containing "like", a
visible, enabled, clickable element whose combined blob is built from the
text "liked" is accepted: the partial fuzzy score of "like" against the
blob reaches 100 because partial matching does not penalize the unmatched
suffix. -/
theorem C8_partial_match_tolerates_suffix :
    fuzzScore (strLower "like")
        (strLower ("liked" ++ " " ++ "" ++ " " ++ "" ++ " " ++ "" ++ " " ++ "")) = 100 ∧
    "like" ∈ INTERACTION_KEYWORDS ∧
    is_likely_interaction_element 100 likedButton = true := by
  refine ⟨by decide, by decide, by decide⟩

/-- Claim C9: every record in a successful discovery result carries a
non-empty `match_type` that is one of the four strategy tags, set at
creation time by the strategy that produced the record. -/
theorem C9_records_carry_strategy_tag (threshold : Nat) (d : Driver)
    (out : List ElementRecord)
    (hout : find_interaction_elements threshold d = .ok out)
    (r : ElementRecord) (hr : r ∈ out) :
    r.matchType ≠ "" ∧ r.matchType ∈ match_type_tags := by
  obtain ⟨k, v, c, cr, hk, hv, hc, hcr, hdec⟩ :=
    find_ok_decomposition threshold d out hout
  subst hdec
  unfold deduplicate_elements at hr
  have hmem := mem_of_mem_dedup_aux r _ [] hr
  rcases List.mem_append.mp hmem with hm | hmC
  · rcases List.mem_append.mp hm with hm2 | hmV
    · rcases List.mem_append.mp hm2 with hmK | hmS
      · rw [keyword_strategy_tags threshold d INTERACTION_KEYWORDS k hk r hmK]
        exact ⟨by decide, by decide⟩
      · rw [selector_strategy_tags threshold d ELEMENT_SELECTORS r hmS]
        exact ⟨by decide, by decide⟩
    · obtain ⟨e2, _, rfl⟩ := List.mem_map.mp hmV
      rw [matchType_create]
      exact ⟨by decide, by decide⟩
  · rw [counter_strategy_tags threshold d c cr hcr r hmC]
    exact ⟨by decide, by decide⟩

/-- Witness for C9 at a concrete input: on `oneHitDriver` the discovery
result is `[goodRecord]`, whose tag is a strategy tag. -/
theorem C9_witness :
    goodRecord.matchType ≠ "" ∧ goodRecord.matchType ∈ match_type_tags :=
  C9_records_carry_strategy_tag 0 oneHitDriver [goodRecord] rfl goodRecord
    (List.mem_singleton.mpr rfl)

/-- Claim C10: every record in a successful discovery result is a full
eleven-field record whose `element_xpath` is a non-empty string; in
particular the exception-branch records of `_create_element_info` (which
lack `element_xpath`) are always removed by deduplication. -/
theorem C10_output_records_full_with_xpath (threshold : Nat) (d : Driver)
    (out : List ElementRecord)
    (hout : find_interaction_elements threshold d = .ok out)
    (r : ElementRecord) (hr : r ∈ out) :
    r.xpathValue ≠ "" ∧
    ∃ etext etag ecls eid earia etitle ehtml xp ecss mterm mtype,
      r = ElementRecord.full etext etag ecls eid earia etitle ehtml (some xp)
        ecss mterm mtype ∧ xp ≠ "" := by
  obtain ⟨k, v, c, cr, hk, hv, hc, hcr, hdec⟩ :=
    find_ok_decomposition threshold d out hout
  subst hdec
  unfold deduplicate_elements at hr
  have hx := xpathValue_ne_of_mem_dedup_aux r _ [] hr
  refine ⟨hx, ?_⟩
  rcases r with ⟨etext, etag, ecls, eid, earia, etitle, ehtml, xp0, ecss,
    mterm, mtype⟩ | ⟨a, b, m, mterm, mtype⟩
  · rcases xp0 with _ | x
    · simp [ElementRecord.xpathValue] at hx
    · refine ⟨etext, etag, ecls, eid, earia, etitle, ehtml, x, ecss, mterm,
        mtype, rfl, ?_⟩
      intro h0
      exact hx (by simp [ElementRecord.xpathValue, h0])
  · simp [ElementRecord.xpathValue] at hx

/-- Witness for C10 at a concrete input: the single record produced on
`oneHitDriver` is a full record with a non-empty locator. -/
theorem C10_witness :
    goodRecord.xpathValue ≠ "" ∧
    ∃ etext etag ecls eid earia etitle ehtml xp ecss mterm mtype,
      goodRecord = ElementRecord.full etext etag ecls eid earia etitle ehtml
        (some xp) ecss mterm mtype ∧ xp ≠ "" :=
  C10_output_records_full_with_xpath 0 oneHitDriver [goodRecord] rfl
    goodRecord (List.mem_singleton.mpr rfl)

end ElementFinder
